import Mathlib

/-
Shallow embedding of the LINE stamp generator repository (src/app.py and
src/utils.py) and proofs about its batch-generation pipeline.

Modelling conventions:
- PIL images are modelled by their pixel dimensions plus an abstract pixel
  payload (a list of naturals).  Pixel resampling performed by a resize is
  abstracted away: a resize changes the dimensions and keeps the payload.
- All interactions with the outside world (the google.genai SDK and PIL
  encoding and decoding) are collected in an Env record of oracle
  functions; a fallible external call returns Except, mirroring a Python
  call that either returns or raises.
- Module-level mutable state of utils.py (the single global _client) is
  threaded explicitly: stateful functions take a UtilsState and return the
  state they leave behind.
- Every external request issued by generate_stamp is recorded in a trace
  (a list of ApiCall values) so that request-counting properties can be
  stated.
-/

namespace LineStamp

/-- Model of a PIL.Image: pixel dimensions plus abstract pixel data. -/
structure Image where
  width : Nat
  height : Nat
  data : List Nat
deriving DecidableEq, Repr

/-- Model of a genai.Client handle, as constructed from an API key. -/
structure Client where
  api_key : String
deriving DecidableEq, Repr

/-- Module-level mutable state of utils.py: the single global _client
(utils.py line 10), which is None until init_gemini succeeds. -/
structure UtilsState where
  client : Option Client
deriving DecidableEq, Repr

/-- Model of types.ReferenceImage as built in utils.py lines 83-92. -/
structure ReferenceImage where
  reference_id : String
  reference_type : String
  data : List Nat
deriving DecidableEq, Repr

/-- Model of one element of response.generated_images.  The attribute
chain of utils.py lines 144-161 (image as raw bytes, image.image_bytes,
image._image_bytes, .binary, bytes(...) cast) either produces a byte
string or fails; bytesOpt is that outcome.  imageTypeName models
type(generated_image_obj.image), used only in an error message. -/
structure GeneratedImage where
  bytesOpt : Option (List Nat)
  imageTypeName : String
deriving DecidableEq, Repr

/-- Model of the response of client.models.generate_images. -/
structure GenResponse where
  generated_images : List GeneratedImage
deriving DecidableEq, Repr

/-- Model of types.GenerateImagesConfig as built in utils.py lines
112-118. -/
structure GenerateImagesConfig where
  number_of_images : Nat
  aspect_ratio_str : String
  include_rai_reason : Bool
  reference_images : Option (List ReferenceImage)
deriving DecidableEq, Repr

/-- One external API request issued by the program, recording the model
name and, for the two content calls, the prompt sent. -/
inductive ApiCall where
  | describeCall (model : String) (prompt : String)
  | generateImagesCall (model : String) (prompt : String)
  | listModelsCall
deriving DecidableEq, Repr

/-- Oracle for the outside world: the genai SDK entry points used by
utils.py and the PIL encode and decode steps.  Fallible calls return
Except, mirroring Python calls that either return a value or raise. -/
structure Env where
  newClient : String → Except String Client
  describe : Client → String → String → Image → Except String String
  genImages : Client → String → String → GenerateImagesConfig → Except String GenResponse
  listModels : Client → Except String (List String)
  decodeImage : List Nat → Except String Image
  pngBytes : Image → List Nat

/-- Boolean test that a list of characters starts with the pattern. -/
def leadMatch : List Char → List Char → Bool
  | [], _ => true
  | _ :: _, [] => false
  | p :: ps, c :: cs => p == c && leadMatch ps cs

/-- Boolean test that the pattern occurs contiguously in the list. -/
def occursIn (pat : List Char) : List Char → Bool
  | [] => pat.isEmpty
  | c :: rest => leadMatch pat (c :: rest) || occursIn pat rest

/-- Model of the Python substring test (pat in s). -/
def strContains (s pat : String) : Bool := occursIn pat.data s.data

/-- Decimal digit to character. -/
def digitChar (d : Nat) : Char :=
  match d with
  | 0 => '0' | 1 => '1' | 2 => '2' | 3 => '3' | 4 => '4'
  | 5 => '5' | 6 => '6' | 7 => '7' | 8 => '8' | _ => '9'

/-- Little-endian decimal digits of n, with explicit fuel so that the
recursion is structural (the fuel is an upper bound on n). -/
def decDigitsAux : Nat → Nat → List Nat
  | 0, _ => []
  | _+1, 0 => []
  | fuel+1, n+1 => ((n+1) % 10) :: decDigitsAux fuel ((n+1) / 10)

/-- Decimal string of a natural number, as Python str(n) renders it for
nonnegative n. -/
def natDecStr (n : Nat) : String :=
  if n = 0 then "0" else String.mk (((decDigitsAux n n).reverse).map digitChar)

/-- Model of the Python format specifier 02d: the decimal digits of n,
zero-padded on the left to width at least two. -/
def pad02 (n : Nat) : String :=
  if n < 10 then "0" ++ natDecStr n else natDecStr n

/-- Filename given to the stamp generated at loop index i
(app.py line 154): sticker_{i+1:02d}.png. -/
def stickerName (i : Nat) : String := "sticker_" ++ pad02 (i+1) ++ ".png"

/-- Model of the helper round_aspect inside PIL Image.thumbnail: picks
floor or ceiling of the number, whichever the key function rates smaller
(floor on ties, as Python min does), and never goes below 1. -/
def roundAspect (number : ℚ) (key : ℤ → ℚ) : ℤ :=
  max (if key ⌊number⌋ ≤ key ⌈number⌉ then ⌊number⌋ else ⌈number⌉) 1

/-- Model of PIL Image.thumbnail(size): no-op when the image already fits
in the box, otherwise an aspect-preserving shrink to the box; the
resampling of pixels is abstracted away (payload kept). -/
def Image.thumbnail (img : Image) (sx sy : Nat) : Image :=
  if sx ≥ img.width ∧ sy ≥ img.height then img
  else
    let aspect : ℚ := (img.width : ℚ) / (img.height : ℚ)
    if (sx : ℚ) / (sy : ℚ) ≥ aspect then
      let x : ℤ := roundAspect ((sy : ℚ) * aspect) (fun n => |aspect - (n : ℚ) / (sy : ℚ)|)
      if img.width = x.toNat ∧ img.height = sy then img
      else { img with width := x.toNat, height := sy }
    else
      let y : ℤ := roundAspect ((sx : ℚ) / aspect)
        (fun n => if n = 0 then 0 else |aspect - (sx : ℚ) / (n : ℚ)|)
      if img.width = sx ∧ img.height = y.toNat then img
      else { img with width := sx, height := y.toNat }

/-- Fallback character description of utils.py line 47. -/
def defaultDescription : String := "A cute mascot character."

/-- The triple-quoted analysis prompt of utils.py lines 52-61. -/
def analysisPrompt : String :=
  "\n                Analyze this character image for a LINE sticker project. \n                Identify and describe in detail:\n                1. Art Style & Line Quality: (e.g., thick/thin lines, clean/sketchy, vector/hand-drawn)\n                2. Color Palette: (exact colors, shading style, gradients)\n                3. Key Features: (proportions, eye shape, accessories, hair style)\n                4. Unique Identifiers: (patterns, marks, specific costume details)\n                \n                Provide the analysis in a way that helps another AI model reproduce this EXACT character consistently.\n                "

/-- The fixed reference id of utils.py line 74. -/
def refId : String := "input_character"

/-- Literal segment of the full_prompt f-string before the first ref_id
interpolation. -/
def fpA : String :=
  "\n        A professional LINE sticker illustration.\n        Subject: The character ["

/-- Literal segment of the full_prompt f-string between ref_id and the
caption text. -/
def fpB : String := "]\n        Action/Emotion: "

/-- Literal segment of the full_prompt f-string between the caption text
and the character description. -/
def fpC : String := "\n        \n        Style Reconstruction Guide:\n        "

/-- Literal segment of the full_prompt f-string between the character
description and the second ref_id interpolation. -/
def fpD : String := "\n        \n        CRITICAL: Maintain absolute consistency with ["

/-- Literal tail segment of the full_prompt f-string. -/
def fpE : String :=
  "]. Use the exact same line style, color treatment, and character proportions as the reference image.\n        Background: Pure white background.\n        Composition: Vector art, clean lines, high quality, 2D illustration.\n        "

/-- The f-string full_prompt of utils.py lines 94-105, parameterised by
the reference id, the caption text and the character description. -/
def fullPrompt (ref_id text character_description : String) : String :=
  fpA ++ ref_id ++ fpB ++ text ++ fpC ++ character_description ++ fpD ++ ref_id ++ fpE

/-- Step 1 of generate_stamp (utils.py lines 46-71): when a base image is
present, call the vision model on the analysis prompt; use response.text
when it is truthy, and keep the default description when the response
text is falsy or the call raises. -/
def charDescription (env : Env) (client : Client) (base_image : Option Image) : String :=
  match base_image with
  | none => defaultDescription
  | some img =>
    match env.describe client "gemini-1.5-pro" analysisPrompt img with
    | Except.ok t => if t ≠ "" then t else defaultDescription
    | Except.error _ => defaultDescription

/-- The reference_images list of utils.py lines 77-92: empty without a
base image, otherwise one SUBJECT reference carrying the PNG bytes of the
base image. -/
def referenceImagesOf (env : Env) (base_image : Option Image) : List ReferenceImage :=
  match base_image with
  | none => []
  | some img => [{ reference_id := refId, reference_type := "SUBJECT", data := env.pngBytes img }]

/-- The GenerateImagesConfig of utils.py lines 112-118; an empty
reference list is passed as None. -/
def genConfigOf (env : Env) (base_image : Option Image) : GenerateImagesConfig :=
  { number_of_images := 1
    aspect_ratio_str := "1:1"
    include_rai_reason := true
    reference_images :=
      if (referenceImagesOf env base_image).isEmpty then none
      else some (referenceImagesOf env base_image) }

/-- Result of one generate_stamp call: the returned (image, error) pair,
the trace of external requests issued, and the module state left behind. -/
structure StampResult where
  image : Option Image
  errorMsg : Option String
  calls : List ApiCall
  state : UtilsState

/-- Model of utils.generate_stamp (utils.py lines 26-178).  The function
reads the global _client and never assigns it, so the state passes
through unchanged on every path.  Branches mirror the source: early
return without a client; step 1 describe (only with a base image, errors
swallowed); step 2 generate_images, whose exception either triggers the
model-listing diagnostic (404 / NOT_FOUND) or is re-raised into the outer
handler which returns (None, str(e)); then byte extraction, PIL decoding,
and the thumbnail resize on the success path.  The final truthiness test
on the freshly decoded PIL image (utils.py line 170) is always true. -/
def generate_stamp (st : UtilsState) (env : Env) (base_image : Option Image)
    (text : String) (style_prompt : String) : StampResult :=
  match st.client with
  | none =>
    { image := none, errorMsg := some "API not initialized. Please configure API Key."
      calls := [], state := st }
  | some client =>
    let trace1 : List ApiCall :=
      match base_image with
      | none => []
      | some _ => [ApiCall.describeCall "gemini-1.5-pro" analysisPrompt]
    let character_description := charDescription env client base_image
    let full_prompt := fullPrompt refId text character_description
    match env.genImages client "imagen-4.0-generate-001" full_prompt (genConfigOf env base_image) with
    | Except.error e =>
      let trace := trace1 ++ [ApiCall.generateImagesCall "imagen-4.0-generate-001" full_prompt]
      if strContains e "404" || strContains e "NOT_FOUND" then
        match env.listModels client with
        | Except.ok names =>
          { image := none
            errorMsg := some ("Model \x27imagen-4.0-generate-001\x27 not found. Available models on your key: "
              ++ toString names ++ ". ERROR details: " ++ e)
            calls := trace ++ [ApiCall.listModelsCall], state := st }
        | Except.error listErr =>
          { image := none
            errorMsg := some ("Model not found and failed to list models: " ++ listErr
              ++ ". Original error: " ++ e)
            calls := trace ++ [ApiCall.listModelsCall], state := st }
      else
        { image := none, errorMsg := some e, calls := trace, state := st }
    | Except.ok resp =>
      let trace := trace1 ++ [ApiCall.generateImagesCall "imagen-4.0-generate-001" full_prompt]
      match resp.generated_images with
      | [] =>
        { image := none, errorMsg := some "No image returned from API.", calls := trace, state := st }
      | gi :: _ =>
        match gi.bytesOpt with
        | none =>
          { image := none
            errorMsg := some ("Could not extract image bytes from " ++ gi.imageTypeName)
            calls := trace, state := st }
        | some bs =>
          match env.decodeImage bs with
          | Except.error e =>
            { image := none, errorMsg := some ("Failed to process generated image: " ++ e)
              calls := trace, state := st }
          | Except.ok generated_image =>
            { image := some (generated_image.thumbnail 370 320), errorMsg := none
              calls := trace, state := st }

/-- Model of utils.init_gemini (utils.py lines 12-24): a falsy key (the
empty string models both empty and missing) returns the failure pair
without touching _client; otherwise the client constructor either
succeeds, in which case _client is assigned and the success pair is
returned, or raises, in which case the assignment never happens and the
failure pair carries the exception text. -/
def init_gemini (st : UtilsState) (env : Env) (api_key : String) :
    (Bool × String) × UtilsState :=
  if api_key = "" then ((false, "API Key is missing."), st)
  else
    match env.newClient api_key with
    | Except.ok c => ((true, "API Key configured successfully."), { client := some c })
    | Except.error e => ((false, e), st)

/-- Model of utils.create_zip (utils.py lines 180-196): the archive is
modelled by its ordered entry list; the loop writes, for each
(filename, image) pair of the mapping in iteration order, one entry named
by the filename and holding the PNG serialization of the image.
create_zip touches no module-level state, so the state passes through. -/
def create_zip (st : UtilsState) (env : Env) (images_map : List (String × Image)) :
    List (String × List Nat) × UtilsState :=
  (images_map.foldl (fun zf entry => zf ++ [(entry.1, env.pngBytes entry.2)]) [], st)

/-- The style_prompt argument passed by app.py line 151. -/
def stylePromptApp : String := "Anime style, cute, expressive"

/-- Python truthiness of the value bound by img = utils.generate_stamp(...)
in app.py line 151: generate_stamp returns a 2-tuple, and a non-empty
tuple is always truthy, whatever its components are. -/
def tupleTruthy (p : Option Image × Option String) : Bool := true

/-- Python dict assignment d[k] = v on an insertion-ordered dictionary
modelled as an association list: overwrite in place when the key is
present, append otherwise. -/
def dictInsert {V : Type} (m : List (String × V)) (k : String) (v : V) :
    List (String × V) :=
  if m.any (fun p => p.1 == k) then m.map (fun p => if p.1 == k then (k, v) else p)
  else m ++ [(k, v)]

/-- Observable outcome of one run of the Generate Stamps handler: the
generated_images dictionary, the st.warning messages emitted, and the
per-caption request traces. -/
structure RunOutput where
  generated_images : List (String × (Option Image × Option String))
  warnings : List String
  traces : List (List ApiCall)
deriving Repr

/-- One generation call as the batch loop performs it (app.py line 151). -/
def runItem (st : UtilsState) (env : Env) (base_image : Option Image) (text : String) :
    StampResult :=
  generate_stamp st env base_image text stylePromptApp

/-- One iteration of the batch loop (app.py lines 146-163): bind the pair
returned by generate_stamp, test its Python truthiness, store it in the
dictionary under sticker_{i+1:02d}.png when truthy and emit the warning
otherwise.  The requests issued by the call are appended to the trace in
both branches, since they happen inside generate_stamp. -/
def batchStep (st : UtilsState) (env : Env) (base_image : Option Image) (lines : List String)
    (out : RunOutput) (i : Nat) : RunOutput :=
  let text := lines.getD i ""
  let r := runItem st env base_image text
  let img := (r.image, r.errorMsg)
  if tupleTruthy img then
    { out with
      generated_images := dictInsert out.generated_images (stickerName i) img
      traces := out.traces ++ [r.calls] }
  else
    { out with
      warnings := out.warnings ++ ["Failed to generate: " ++ text]
      traces := out.traces ++ [r.calls] }

/-- Model of the Generate Stamps button handler loop (app.py lines
139-163): MAX_ITEMS = min(stamp_count, len(lines)), and the loop runs
over range MAX_ITEMS in order.  The module state is fixed across
iterations because generate_stamp never changes it. -/
def runBatch (st : UtilsState) (env : Env) (base_image : Option Image)
    (stamp_count : Nat) (lines : List String) : RunOutput :=
  (List.range (min stamp_count lines.length)).foldl (batchStep st env base_image lines)
    { generated_images := [], warnings := [], traces := [] }

/-- One step of reading a decimal numeral left to right. -/
def decStep (a : Nat) (c : Char) : Nat := 10 * a + (c.toNat - 48)

/-- Value of a decimal numeral given as characters (leading zeros are
harmless); used only to prove the sticker filenames injective. -/
def strVal (l : List Char) : Nat := l.foldl decStep 0

/-- Discriminator for image-generation requests in a trace. -/
def ApiCall.isGen : ApiCall → Bool
  | ApiCall.generateImagesCall _ _ => true
  | _ => false

/-- Discriminator for describe (vision) requests in a trace. -/
def ApiCall.isDescribe : ApiCall → Bool
  | ApiCall.describeCall _ _ => true
  | _ => false

/-- Concrete image fixture used by closed theorems. -/
def imgW : Image := { width := 100, height := 100, data := [1, 2, 3] }

/-- Concrete generated-image fixture with extractable bytes. -/
def giW : GeneratedImage := { bytesOpt := some [7, 7], imageTypeName := "Image" }

/-- Concrete environment in which every external call succeeds. -/
def envOkW : Env :=
  { newClient := fun k => Except.ok { api_key := k }
    describe := fun _ _ _ _ => Except.ok "A small blue cat."
    genImages := fun _ _ _ _ => Except.ok { generated_images := [giW] }
    listModels := fun _ => Except.ok []
    decodeImage := fun bs => Except.ok { width := 1000, height := 500, data := bs }
    pngBytes := fun im => im.data }

/-- Concrete environment in which the image-generation call raises. -/
def envFailW : Env := { envOkW with genImages := fun _ _ _ _ => Except.error "boom" }

/-- Concrete environment whose decoded image already fits the LINE box. -/
def envSmallW : Env :=
  { envOkW with decodeImage := fun bs => Except.ok { width := 100, height := 50, data := bs } }

/-- Concrete module state with an initialized client. -/
def stW : UtilsState := { client := some { api_key := "k" } }

/-- Concrete module state before any initialization. -/
def stNoneW : UtilsState := { client := none }

theorem foldl_append_map {α β : Type} (f : α → β) (l : List α) :
    ∀ acc : List β, l.foldl (fun zf a => zf ++ [f a]) acc = acc ++ l.map f := by
  induction l with
  | nil => intro acc; simp
  | cons a l ih => intro acc; simp [ih]

/-- C3: for every mapping from filenames to images, create_zip returns an
archive containing exactly one entry per pair of the input, named by the
key and holding the PNG serialization of the value, and nothing else. -/
theorem create_zip_entries (st : UtilsState) (env : Env)
    (images_map : List (String × Image)) :
    (create_zip st env images_map).1
      = images_map.map (fun entry => (entry.1, env.pngBytes entry.2)) := by
  simpa using foldl_append_map (fun entry : String × Image => (entry.1, env.pngBytes entry.2))
    images_map []

/-- C9: generate_stamp is total at its interface: on every input it
returns a pair in which exactly one component is present — an image and
no error on success, no image and an error message on failure. -/
theorem generate_stamp_exclusive (st : UtilsState) (env : Env) (base_image : Option Image)
    (text style_prompt : String) :
    ((generate_stamp st env base_image text style_prompt).image.isSome = true ∧
      (generate_stamp st env base_image text style_prompt).errorMsg = none) ∨
    ((generate_stamp st env base_image text style_prompt).image = none ∧
      (generate_stamp st env base_image text style_prompt).errorMsg.isSome = true) := by
  unfold generate_stamp
  repeat' (first | split | dsimp only)
  all_goals simp

/-- C10: init_gemini with an empty (or missing) API key returns the
failure pair with the fixed message and leaves the client handle
unchanged; and whenever init_gemini changes the state at all, it returned
success. -/
theorem init_gemini_missing_key (st : UtilsState) (env : Env) (api_key : String) :
    (api_key = "" → init_gemini st env api_key = ((false, "API Key is missing."), st)) ∧
    ((init_gemini st env api_key).2 ≠ st → (init_gemini st env api_key).1.1 = true) := by
  constructor
  · intro h
    simp [init_gemini, h]
  · intro h
    by_cases hk : api_key = ""
    · simp [init_gemini, hk] at h
    · cases hc : env.newClient api_key with
      | ok c => simp [init_gemini, hk, hc]
      | error e => simp [init_gemini, hk, hc] at h

/-- Witness for C10 at a concrete input: the empty key yields the failure
pair and the untouched state. -/
theorem init_gemini_missing_key_witness :
    init_gemini stNoneW envOkW "" = ((false, "API Key is missing."), stNoneW) :=
  (init_gemini_missing_key stNoneW envOkW "").1 rfl

/-- C7: the only module-level state is the client handle: generate_stamp
and create_zip leave it unchanged on every call, success or failure, and
init_gemini is the only operation that assigns it — whenever the state
changed, init_gemini took the success path and installed a client. -/
theorem module_state_frame (st : UtilsState) (env : Env) (base_image : Option Image)
    (text style_prompt api_key : String) (images_map : List (String × Image)) :
    (generate_stamp st env base_image text style_prompt).state = st ∧
    (create_zip st env images_map).2 = st ∧
    ((init_gemini st env api_key).2 ≠ st →
      ∃ c : Client, (init_gemini st env api_key).2 = { client := some c } ∧
        (init_gemini st env api_key).1.1 = true) := by
  refine ⟨?_, rfl, ?_⟩
  · unfold generate_stamp
    repeat' (first | rfl | split | dsimp only)
  · intro h
    by_cases hk : api_key = ""
    · simp [init_gemini, hk] at h
    · cases hc : env.newClient api_key with
      | ok c => exact ⟨c, by simp [init_gemini, hk, hc]⟩
      | error e => simp [init_gemini, hk, hc] at h

/-- Witness for C7 at a concrete input: generate_stamp and create_zip
leave the state alone, and an init_gemini call that changed the state
returned success. -/
theorem module_state_frame_witness :
    (generate_stamp stW envOkW (some imgW) "Hello" stylePromptApp).state = stW ∧
    (∃ c : Client, (init_gemini stNoneW envOkW "k").2 = { client := some c } ∧
      (init_gemini stNoneW envOkW "k").1.1 = true) :=
  ⟨(module_state_frame stW envOkW (some imgW) "Hello" stylePromptApp "k" []).1,
    (module_state_frame stNoneW envOkW (some imgW) "Hello" stylePromptApp "k" []).2.2
      (by decide)⟩

/-- C1 (failing input): in a batch of one caption Hello with an
initialized client and a base image, where the image-generation call for
that caption fails with the error boom, the loop emits no warning and
stores the failed pair (None, boom) in generated_images under
sticker_01.png — the tuple returned by generate_stamp is always truthy,
so the failure branch of the loop is dead code. -/
theorem failed_caption_stored_without_warning :
    (runBatch stW envFailW (some imgW) 8 ["Hello"]).warnings = [] ∧
    (runBatch stW envFailW (some imgW) 8 ["Hello"]).generated_images
      = [("sticker_01.png", (none, some "boom"))] :=
  ⟨rfl, rfl⟩

theorem digitChar_val (d : Nat) (hd : d < 10) : (digitChar d).toNat - 48 = d := by
  interval_cases d <;> rfl

theorem decDigitsAux_foldl :
    ∀ (fuel n : Nat), n ≤ fuel → ∀ acc : Nat,
      ((decDigitsAux fuel n).reverse.map digitChar).foldl decStep acc
        = acc * 10 ^ (decDigitsAux fuel n).length + n := by
  intro fuel
  induction fuel with
  | zero =>
    intro n hn acc
    interval_cases n
    simp [decDigitsAux]
  | succ fuel ih =>
    intro n hn acc
    cases n with
    | zero => simp [decDigitsAux]
    | succ m =>
      have hq : (m + 1) / 10 ≤ fuel := by
        have h1 : (m + 1) / 10 < m + 1 := Nat.div_lt_self (Nat.succ_pos m) (by norm_num)
        omega
      have hd : (m + 1) % 10 < 10 := Nat.mod_lt _ (by norm_num)
      simp only [decDigitsAux, List.reverse_cons, List.map_append, List.map_cons, List.map_nil,
        List.foldl_append, List.foldl_cons, List.foldl_nil, List.length_cons]
      rw [ih ((m + 1) / 10) hq acc]
      simp only [decStep, digitChar_val _ hd]
      rw [pow_succ, ← mul_assoc]
      omega

theorem strVal_natDecStr (n : Nat) : strVal (natDecStr n).data = n := by
  by_cases h : n = 0
  · subst h; rfl
  · unfold natDecStr strVal
    rw [if_neg h]
    simpa using decDigitsAux_foldl n n le_rfl 0

theorem strVal_pad02 (n : Nat) : strVal (pad02 n).data = n := by
  unfold pad02
  by_cases h : n < 10
  · rw [if_pos h]
    have hdata : ("0" ++ natDecStr n).data = '0' :: (natDecStr n).data := by
      simp [String.data_append]
    rw [hdata]
    show List.foldl decStep (decStep 0 '0') (natDecStr n).data = n
    have h0 : decStep 0 '0' = 0 := rfl
    rw [h0]
    exact strVal_natDecStr n
  · rw [if_neg h]
    exact strVal_natDecStr n

theorem pad02_inj {m n : Nat} (h : pad02 m = pad02 n) : m = n := by
  have h2 := congrArg (fun s => strVal s.data) h
  simpa [strVal_pad02] using h2

theorem stickerName_inj {i j : Nat} (h : stickerName i = stickerName j) : i = j := by
  unfold stickerName at h
  have hd := congrArg String.data h
  simp only [String.data_append, List.append_assoc] at hd
  have h1 : (pad02 (i+1)).data ++ ".png".data = (pad02 (j+1)).data ++ ".png".data :=
    List.append_cancel_left hd
  have h2 : (pad02 (i+1)).data = (pad02 (j+1)).data := List.append_cancel_right h1
  have h3 : pad02 (i+1) = pad02 (j+1) := String.ext h2
  have := pad02_inj h3
  omega

theorem names_fresh (M : Nat) (g : Nat → Option Image × Option String) :
    ((List.range M).map (fun i => (stickerName i, g i))).any
      (fun p => p.1 == stickerName M) = false := by
  rw [List.any_eq_false]
  intro p hp
  simp only [List.mem_map, List.mem_range] at hp
  obtain ⟨i, hi, rfl⟩ := hp
  simp only [beq_iff_eq]
  intro hcontr
  exact Nat.ne_of_lt hi (stickerName_inj hcontr)

theorem batch_loop_closed (st : UtilsState) (env : Env) (base_image : Option Image)
    (lines : List String) (M : Nat) :
    (List.range M).foldl (batchStep st env base_image lines)
        { generated_images := [], warnings := [], traces := [] }
      = { generated_images :=
            (List.range M).map (fun i =>
              (stickerName i,
                ((runItem st env base_image (lines.getD i "")).image,
                  (runItem st env base_image (lines.getD i "")).errorMsg)))
          warnings := []
          traces := (List.range M).map
            (fun i => (runItem st env base_image (lines.getD i "")).calls) } := by
  induction M with
  | zero => rfl
  | succ M ih =>
    rw [List.range_succ, List.foldl_append, ih]
    simp only [List.foldl_cons, List.foldl_nil, batchStep, tupleTruthy, if_true, dictInsert]
    rw [names_fresh]
    simp [List.range_succ]

/-- C2: a batch run with stamp_count S over the entered caption lines
processes exactly min(S, number of lines) captions, in entry order,
issuing exactly one generate_stamp call per processed caption and storing
exactly one dictionary entry per processed caption. -/
theorem batch_processes_min_in_order (st : UtilsState) (env : Env) (base_image : Option Image)
    (stamp_count : Nat) (lines : List String) :
    (runBatch st env base_image stamp_count lines).traces
      = (List.range (min stamp_count lines.length)).map
          (fun i => (generate_stamp st env base_image (lines.getD i "") stylePromptApp).calls) ∧
    (runBatch st env base_image stamp_count lines).generated_images
      = (List.range (min stamp_count lines.length)).map
          (fun i => (stickerName i,
            ((generate_stamp st env base_image (lines.getD i "") stylePromptApp).image,
              (generate_stamp st env base_image (lines.getD i "") stylePromptApp).errorMsg))) := by
  unfold runBatch
  rw [batch_loop_closed]
  exact ⟨rfl, rfl⟩

/-- C4: sticker filenames for distinct loop indices always differ, and in
every batch run the generated_images dictionary has pairwise distinct
keys and one entry per processed caption, so no insert ever overwrites a
previously stored entry. -/
theorem sticker_filenames_unique (st : UtilsState) (env : Env) (base_image : Option Image)
    (stamp_count : Nat) (lines : List String) :
    (∀ i j : Nat, i ≠ j → stickerName i ≠ stickerName j) ∧
    ((runBatch st env base_image stamp_count lines).generated_images.map Prod.fst).Nodup ∧
    (runBatch st env base_image stamp_count lines).generated_images.length
      = min stamp_count lines.length := by
  refine ⟨fun i j hij hcontr => hij (stickerName_inj hcontr), ?_, ?_⟩
  · unfold runBatch
    rw [batch_loop_closed]
    simp only [List.map_map]
    exact List.Nodup.map (fun a b h => stickerName_inj h) (List.nodup_range _)
  · unfold runBatch
    rw [batch_loop_closed]
    simp

/-- Witness for C4 at a concrete input: the filenames at loop indices 0
and 1 differ. -/
theorem sticker_filenames_unique_witness : stickerName 0 ≠ stickerName 1 :=
  (sticker_filenames_unique stNoneW envOkW none 0 []).1 0 1 (by decide)

theorem generate_stamp_calls_shape (st : UtilsState) (env : Env) (base_image : Option Image)
    (text style_prompt : String) (c : Client) (hc : st.client = some c) :
    ∃ extra : List ApiCall,
      (generate_stamp st env base_image text style_prompt).calls
        = (match base_image with
            | none => []
            | some _ => [ApiCall.describeCall "gemini-1.5-pro" analysisPrompt])
          ++ ([ApiCall.generateImagesCall "imagen-4.0-generate-001"
                (fullPrompt refId text (charDescription env c base_image))] ++ extra)
      ∧ (extra = [] ∨ extra = [ApiCall.listModelsCall]) := by
  obtain ⟨cl⟩ := st
  dsimp only at hc
  subst hc
  cases base_image with
  | none =>
    unfold generate_stamp
    dsimp only
    repeat' (first | split | dsimp only)
    all_goals first
      | (refine ⟨[], ?_, Or.inl rfl⟩; simp; done)
      | (refine ⟨[ApiCall.listModelsCall], ?_, Or.inr rfl⟩; simp; done)
  | some b =>
    unfold generate_stamp
    dsimp only
    repeat' (first | split | dsimp only)
    all_goals first
      | (refine ⟨[], ?_, Or.inl rfl⟩; simp; done)
      | (refine ⟨[ApiCall.listModelsCall], ?_, Or.inr rfl⟩; simp; done)

theorem generate_stamp_calls_count (st : UtilsState) (env : Env) (base_image : Option Image)
    (text style_prompt : String) (c : Client) (hc : st.client = some c) :
    ((generate_stamp st env base_image text style_prompt).calls.filter ApiCall.isGen).length = 1 ∧
    ((generate_stamp st env base_image text style_prompt).calls.filter ApiCall.isDescribe).length
      = (if base_image.isSome then 1 else 0) := by
  obtain ⟨extra, hcalls, hextra⟩ :=
    generate_stamp_calls_shape st env base_image text style_prompt c hc
  rw [hcalls]
  rcases hextra with h | h <;> subst h <;> cases base_image <;>
    simp [ApiCall.isGen, ApiCall.isDescribe, List.filter_append]

/-- C8 (counterexample): a concrete batch run with an initialized client
and a base image in which the single caption Hello causes two blocking
requests to the external API (one describe call, one image-generation
call), so the caption is not served by exactly one request. -/
theorem batch_caption_not_single_request :
    ¬ (((runBatch stW envFailW (some imgW) 8 ["Hello"]).traces.getD 0 []).length = 1) := by
  decide

/-- C8 (amended): for every caption processed by the batch loop with an
initialized client, the loop issues exactly one blocking request to the
image-generation endpoint, and additionally exactly one describe request
when a base image is provided (none otherwise). -/
theorem batch_requests_per_caption (st : UtilsState) (env : Env) (c : Client)
    (base_image : Option Image) (stamp_count : Nat) (lines : List String) (i : Nat)
    (hc : st.client = some c) (hi : i < min stamp_count lines.length) :
    (((runBatch st env base_image stamp_count lines).traces.getD i []).filter
        ApiCall.isGen).length = 1 ∧
    (((runBatch st env base_image stamp_count lines).traces.getD i []).filter
        ApiCall.isDescribe).length = (if base_image.isSome then 1 else 0) := by
  have htr : (runBatch st env base_image stamp_count lines).traces.getD i []
      = (generate_stamp st env base_image (lines.getD i "") stylePromptApp).calls := by
    unfold runBatch
    rw [batch_loop_closed]
    rw [List.getD_eq_getElem?_getD, List.getElem?_map, List.getElem?_range hi]
    rfl
  rw [htr]
  exact generate_stamp_calls_count st env base_image (lines.getD i "") stylePromptApp c hc

/-- Witness for C8 (amended) at a concrete input: caption 0 of a batch of
one caption, with a client and a base image, gets exactly one
image-generation request and exactly one describe request. -/
theorem batch_requests_per_caption_witness :
    (((runBatch stW envOkW (some imgW) 8 ["Hello"]).traces.getD 0 []).filter
        ApiCall.isGen).length = 1 ∧
    (((runBatch stW envOkW (some imgW) 8 ["Hello"]).traces.getD 0 []).filter
        ApiCall.isDescribe).length = (if (some imgW).isSome then 1 else 0) :=
  batch_requests_per_caption stW envOkW { api_key := "k" } (some imgW) 8 ["Hello"] 0 rfl
    (by decide)

/-- C5: with an initialized client, generate_stamp performs the describe
step exactly when a base image is provided; it then issues the
image-generation call with the composed full prompt, which contains the
caption text and the obtained (or default) character description as
substrings; and any image it returns arose from a successful generation
response whose bytes were decoded and then resized with the thumbnail
call. -/
theorem generate_stamp_pipeline (st : UtilsState) (env : Env) (base_image : Option Image)
    (text style_prompt : String) (c : Client) (hc : st.client = some c) :
    ((∃ m p, ApiCall.describeCall m p ∈ (generate_stamp st env base_image text style_prompt).calls)
        ↔ base_image.isSome = true) ∧
    (ApiCall.generateImagesCall "imagen-4.0-generate-001"
        (fullPrompt refId text (charDescription env c base_image))
      ∈ (generate_stamp st env base_image text style_prompt).calls) ∧
    (∃ pre post : String,
      fullPrompt refId text (charDescription env c base_image) = pre ++ (text ++ post)) ∧
    (∃ pre post : String,
      fullPrompt refId text (charDescription env c base_image)
        = pre ++ (charDescription env c base_image ++ post)) ∧
    (∀ img : Image, (generate_stamp st env base_image text style_prompt).image = some img →
      ∃ (resp : GenResponse) (gi : GeneratedImage) (tail : List GeneratedImage)
        (bs : List Nat) (raw : Image),
        env.genImages c "imagen-4.0-generate-001"
            (fullPrompt refId text (charDescription env c base_image))
            (genConfigOf env base_image) = Except.ok resp ∧
        resp.generated_images = gi :: tail ∧
        gi.bytesOpt = some bs ∧
        env.decodeImage bs = Except.ok raw ∧
        img = raw.thumbnail 370 320) := by
  obtain ⟨extra, hcalls, hextra⟩ :=
    generate_stamp_calls_shape st env base_image text style_prompt c hc
  refine ⟨?_, ?_, ?_, ?_, ?_⟩
  · rw [hcalls]
    cases base_image with
    | none =>
      simp only [Option.isSome_none]
      constructor
      · rintro ⟨m, p, hmem⟩
        rcases hextra with h | h <;> subst h <;> simp at hmem
      · intro h
        simp at h
    | some b =>
      simp only [Option.isSome_some, iff_true]
      exact ⟨"gemini-1.5-pro", analysisPrompt, by simp⟩
  · rw [hcalls]
    simp
  · exact ⟨fpA ++ refId ++ fpB,
      fpC ++ charDescription env c base_image ++ fpD ++ refId ++ fpE,
      by apply String.ext; simp [fullPrompt, String.data_append, List.append_assoc]⟩
  · exact ⟨fpA ++ refId ++ fpB ++ text ++ fpC,
      fpD ++ refId ++ fpE,
      by apply String.ext; simp [fullPrompt, String.data_append, List.append_assoc]⟩
  · obtain ⟨cl⟩ := st
    dsimp only at hc
    subst hc
    intro img him
    unfold generate_stamp at him
    dsimp only at him
    cases hg : env.genImages c "imagen-4.0-generate-001"
        (fullPrompt refId text (charDescription env c base_image))
        (genConfigOf env base_image) with
    | error e =>
      rw [hg] at him
      dsimp only at him
      split at him
      · cases hlm : env.listModels c with
        | ok names =>
          rw [hlm] at him
          exact Option.noConfusion him
        | error le =>
          rw [hlm] at him
          exact Option.noConfusion him
      · exact Option.noConfusion him
    | ok resp =>
      rw [hg] at him
      dsimp only at him
      cases hgen : resp.generated_images with
      | nil =>
        rw [hgen] at him
        exact Option.noConfusion him
      | cons gi tail =>
        rw [hgen] at him
        dsimp only at him
        cases hbs : gi.bytesOpt with
        | none =>
          rw [hbs] at him
          exact Option.noConfusion him
        | some bs =>
          rw [hbs] at him
          dsimp only at him
          cases hdec : env.decodeImage bs with
          | error e2 =>
            rw [hdec] at him
            exact Option.noConfusion him
          | ok raw =>
            rw [hdec] at him
            dsimp only at him
            injection him with h2
            exact ⟨resp, gi, tail, bs, raw, rfl, hgen, hbs, hdec, h2.symm⟩

/-- Witness for C5 at a concrete input: the composed prompt for the
caption Hello contains the caption text. -/
theorem generate_stamp_pipeline_witness :
    ∃ pre post : String,
      fullPrompt refId "Hello" (charDescription envOkW { api_key := "k" } (some imgW))
        = pre ++ ("Hello" ++ post) :=
  (generate_stamp_pipeline stW envOkW (some imgW) "Hello" stylePromptApp
    { api_key := "k" } rfl).2.2.1

theorem roundAspect_le (number : ℚ) (key : ℤ → ℚ) (B : ℕ) (hB : 1 ≤ B)
    (h : number ≤ (B : ℚ)) : (roundAspect number key).toNat ≤ B := by
  rw [Int.toNat_le]
  unfold roundAspect
  have hceil : ⌈number⌉ ≤ (B : ℤ) := by
    rw [Int.ceil_le]
    exact_mod_cast h
  have hfloor : ⌊number⌋ ≤ (B : ℤ) := le_trans (Int.floor_le_ceil number) hceil
  apply max_le
  · split <;> assumption
  · exact_mod_cast hB

theorem thumbnail_le (img : Image) :
    (img.thumbnail 370 320).width ≤ 370 ∧ (img.thumbnail 370 320).height ≤ 320 := by
  unfold Image.thumbnail
  split
  · next h => exact ⟨h.1, h.2⟩
  · next h =>
    dsimp only
    split
    · next hge =>
      have h0 : ((img.width : ℚ) / (img.height : ℚ)) ≤ ((370 : ℕ) : ℚ) / ((320 : ℕ) : ℚ) := hge
      push_cast at h0
      have hx : (((320 : ℕ) : ℚ) * ((img.width : ℚ) / (img.height : ℚ))) ≤ ((370 : ℕ) : ℚ) := by
        push_cast
        linarith
      split
      · next heq =>
        refine ⟨?_, ?_⟩
        · rw [heq.1]
          exact roundAspect_le _ _ 370 (by norm_num) hx
        · rw [heq.2]
      · next =>
        exact ⟨roundAspect_le _ _ 370 (by norm_num) hx, le_refl 320⟩
    · next hlt =>
      have ha : ((370 : ℕ) : ℚ) / ((320 : ℕ) : ℚ) < (img.width : ℚ) / (img.height : ℚ) :=
        lt_of_not_ge hlt
      push_cast at ha
      have hpos : (0 : ℚ) < (img.width : ℚ) / (img.height : ℚ) := by linarith
      have hy : (((370 : ℕ) : ℚ) / ((img.width : ℚ) / (img.height : ℚ))) ≤ ((320 : ℕ) : ℚ) := by
        push_cast
        rw [div_le_iff₀ hpos]
        linarith
      split
      · next heq =>
        refine ⟨?_, ?_⟩
        · rw [heq.1]
        · rw [heq.2]
          exact roundAspect_le _ _ 320 (by norm_num) hy
      · next =>
        exact ⟨le_refl 370, roundAspect_le _ _ 320 (by norm_num) hy⟩

/-- C6: every image successfully returned by generate_stamp has passed
the thumbnail resize, so its width is at most 370 pixels and its height
is at most 320 pixels. -/
theorem generate_stamp_size (st : UtilsState) (env : Env) (base_image : Option Image)
    (text style_prompt : String) :
    ∀ img : Image, (generate_stamp st env base_image text style_prompt).image = some img →
      img.width ≤ 370 ∧ img.height ≤ 320 := by
  intro img him
  unfold generate_stamp at him
  repeat' (first | (split at him) | (dsimp only at him))
  all_goals first
    | exact Option.noConfusion him
    | (injection him with h2; exact h2 ▸ thumbnail_le _)

/-- Witness for C6 at a concrete input: a successful generation returns
an image and that image fits the LINE box. -/
theorem generate_stamp_size_witness :
    (generate_stamp stW envSmallW (some imgW) "Hi" stylePromptApp).image
        = some { width := 100, height := 50, data := [7, 7] } ∧
    Image.width { width := 100, height := 50, data := [7, 7] } ≤ 370 ∧
    Image.height { width := 100, height := 50, data := [7, 7] } ≤ 320 :=
  ⟨rfl, generate_stamp_size stW envSmallW (some imgW) "Hi" stylePromptApp
    { width := 100, height := 50, data := [7, 7] } rfl⟩

end LineStamp
